import Mathlib

/-!
Verification of the receipt-generator scripts
(`generate_test_receipt_{fi,v2,v3,de,sv}.py`) against their specification.

The scripts are straight-line Python using PIL: each creates a white canvas,
draws text lines at hardcoded coordinates while threading a `y_position`
cursor (`draw_text` returns `y + 20`), draws table borders/lines for the tax
breakdown (v2, v3), and saves a PNG.

Shallow embedding choices:
* Monetary arithmetic is embedded in `ℚ`.  The Python scripts compute with
  IEEE doubles and format with `f"{v:.2f}"`; every value the scripts round
  is at distance at least `0.002` from a half-cent rounding boundary, while
  the accumulated double error on these few-operation expressions is below
  `10⁻¹⁰`, so the rational model rounds to exactly the same cent values as
  the floats do (and round-half-even vs round-half-up cannot differ there).
* Drawing calls are recorded as a trace of `DrawOp` values; the `y_position`
  cursor is threaded exactly as in the Python.
* Glyph rasterization lives inside PIL (the spec's external drawing-surface
  collaborator); a text op's pixel footprint is modelled as its bounding box.
-/

namespace Receipt

/-- RGB color triple, as PIL tuples like `(255, 255, 255)`. -/
structure RGB where
  r : Nat
  g : Nat
  b : Nat
deriving DecidableEq, Repr

/-- `BG_COLOR = (255, 255, 255)`, identical in all five scripts. -/
def BG_COLOR : RGB := ⟨255, 255, 255⟩

/-- `TEXT_COLOR = (0, 0, 0)`, identical in all five scripts. -/
def TEXT_COLOR : RGB := ⟨0, 0, 0⟩

/-- `header_bg = (240, 240, 240)` (v2 line 65, v3 line 72). -/
def header_bg : RGB := ⟨240, 240, 240⟩

/-- A font handle: a truetype font at a pixel size, or PIL's built-in
default bitmap font (`ImageFont.load_default()`, glyphs 11 px tall). -/
inductive Font
  | truetype (path : String) (size : Nat)
  | builtinDefault
deriving DecidableEq, Repr

/-- Pixel height of a font: the requested size for truetype, 11 px for the
PIL built-in default bitmap font. -/
def fontHeight : Font → Int
  | .truetype _ s => (s : Int)
  | .builtinDefault => 11

/-- The three font handles each script binds (`font_large/medium/small`). -/
structure FontSet where
  large : Font
  medium : Font
  small : Font
deriving DecidableEq, Repr

/-- The font file every script requests. -/
def helveticaPath : String := "/System/Library/Fonts/Helvetica.ttc"

/-- One `ImageFont.truetype(path, size)` call: the environment `env`
says which sizes resolve; failure raises (modelled as `Except.error`). -/
def truetypeLoad (env : Nat → Bool) (path : String) (size : Nat) :
    Except String Font :=
  if env size then .ok (.truetype path size) else .error "cannot open resource"

/-- The body of the `try:` block (identical in all five scripts): three
sequential `ImageFont.truetype` calls at sizes 16, 14, 12; the first
failure aborts the whole block. -/
def loadFontsTry (env : Nat → Bool) : Except String FontSet :=
  match truetypeLoad env helveticaPath 16 with
  | .error e => .error e
  | .ok l =>
    match truetypeLoad env helveticaPath 14 with
    | .error e => .error e
    | .ok m =>
      match truetypeLoad env helveticaPath 12 with
      | .error e => .error e
      | .ok s => .ok ⟨l, m, s⟩

/-- The `FontSet` holding three `ImageFont.load_default()` handles, as
assigned by the bare `except:` branch of every script. -/
def defaultFonts : FontSet := ⟨.builtinDefault, .builtinDefault, .builtinDefault⟩

/-- The `FontSet` the `try:` block produces when Helvetica resolves. -/
def helveticaFonts : FontSet :=
  ⟨.truetype helveticaPath 16, .truetype helveticaPath 14, .truetype helveticaPath 12⟩

/-- The whole `try/except` font-loading preamble: on any failure inside the
`try:` block, all three handles are (re)bound to the built-in default. -/
def loadFonts (env : Nat → Bool) : FontSet :=
  match loadFontsTry env with
  | .ok fs => fs
  | .error _ => defaultFonts

/-- Whether the `try:` block raised an exception. -/
def raised : Except String FontSet → Bool
  | .ok _ => false
  | .error _ => true

/-- One recorded drawing primitive (`draw.text`, `draw.rectangle`,
`draw.line`). Rectangles carry optional outline and fill colors and the
outline width; lines carry their endpoints and width. -/
inductive DrawOp
  | text (x y : Int) (s : String) (font : Font) (color : RGB)
  | rect (x0 y0 x1 y1 : Int) (outline : Option RGB) (fill : Option RGB) (width : Int)
  | line (x0 y0 x1 y1 : Int) (color : RGB) (width : Int)
deriving DecidableEq, Repr

/-- The `draw_text` helper defined identically in all five scripts:
draw the string at `(x, y)` and return `y + 20`. -/
def draw_text (s : String) (x y : Int) (f : Font) : DrawOp × Int :=
  (.text x y s f TEXT_COLOR, y + 20)

/-- Nearest-cent value of a rational amount, as an integer number of
cents; models rounding a monetary value to 2 decimal places. -/
def roundCents (q : ℚ) : ℤ := round (100 * q)

/-- The string `f"{q:.2f}"` produces for a nonnegative amount:
euros, a dot, and the two-digit cent remainder. -/
def fmt2 (q : ℚ) : String :=
  let c := roundCents q
  let euros := c / 100
  let cents := (c % 100).toNat
  toString euros ++ "." ++ (if cents < 10 then "0" else "") ++ toString cents

end Receipt

namespace Receipt.v3

/-! Constants and tax arithmetic of `generate_test_receipt_v3.py`. -/

def WIDTH : Int := 400
def HEIGHT : Int := 650

/-- `subtotal_14 = 2.50 + 1.89 + 3.20` (line 60). -/
def subtotal_14 : ℚ := 2.50 + 1.89 + 3.20

/-- `subtotal_24 = 4.99 + 8.50` (line 61). -/
def subtotal_24 : ℚ := 4.99 + 8.50

/-- `total_subtotal = subtotal_14 + subtotal_24` (line 62). -/
def total_subtotal : ℚ := subtotal_14 + subtotal_24

/-- `tax_14 = subtotal_14 * 0.14` (line 100). -/
def tax_14 : ℚ := subtotal_14 * 0.14

/-- `total_14 = subtotal_14 + tax_14` (line 101). -/
def total_14 : ℚ := subtotal_14 + tax_14

/-- `tax_24 = subtotal_24 * 0.24` (line 114). -/
def tax_24 : ℚ := subtotal_24 * 0.24

/-- `total_24 = subtotal_24 + tax_24` (line 115). -/
def total_24 : ℚ := subtotal_24 + tax_24

/-- `total_tax = tax_14 + tax_24` (line 125). -/
def total_tax : ℚ := tax_14 + tax_24

/-- `grand_total = total_subtotal + total_tax` (line 126). -/
def grand_total : ℚ := total_subtotal + total_tax

end Receipt.v3

namespace Receipt

/-- One tax bucket as rendered by v2/v3, with the cent values its tax and
total cells display.  For v3 the cells show `f"€{…:.2f}"` of the computed
values; for v2 they are the hardcoded strings `€1.76` / `€14.34`. -/
structure TaxBucket where
  subtotal : ℚ
  rate : ℚ
  dispTaxCents : ℤ
  dispTotalCents : ℤ
deriving DecidableEq, Repr

/-- v2's single hardcoded bucket: subtotal `€12.58` at 14 %, cells
`€1.76` and `€14.34` (v2 lines 91–94). -/
def v2Bucket : TaxBucket := ⟨12.58, 0.14, 176, 1434⟩

/-- v3's 14 % bucket (lines 100–106): cells show the formatted computed
`tax_14` and `total_14`. -/
def v3Bucket14 : TaxBucket :=
  ⟨v3.subtotal_14, 0.14, roundCents v3.tax_14, roundCents v3.total_14⟩

/-- v3's 24 % bucket (lines 114–120). -/
def v3Bucket24 : TaxBucket :=
  ⟨v3.subtotal_24, 0.24, roundCents v3.tax_24, roundCents v3.total_24⟩

/-- Every tax bucket rendered by the scripts in this repository. -/
def allBuckets : List TaxBucket := [v2Bucket, v3Bucket14, v3Bucket24]

/-- Script state while rendering: the drawing ops emitted so far and the
current `y_position` cursor. -/
structure RState where
  ops : List DrawOp
  y : Int
deriving DecidableEq, Repr

/-- `y_position = draw_text(s, x, y_position, f)`: emit the text op at the
cursor and advance the cursor by 20. -/
def RState.row (st : RState) (s : String) (x : Int) (f : Font) : RState :=
  ⟨st.ops ++ [(draw_text s x st.y f).1], (draw_text s x st.y f).2⟩

/-- `draw_text(s, x, y_position + dy, f)` with the return value discarded
(table cells): emit the op, leave the cursor unchanged. -/
def RState.cell (st : RState) (s : String) (x dy : Int) (f : Font) : RState :=
  ⟨st.ops ++ [(draw_text s x (st.y + dy) f).1], st.y⟩

/-- `y_position += n`. -/
def RState.gap (st : RState) (n : Int) : RState :=
  ⟨st.ops, st.y + n⟩

/-- A `draw.rectangle` / `draw.line` call whose coordinates mention the
current `y_position`. -/
def RState.draw (st : RState) (f : Int → DrawOp) : RState :=
  ⟨st.ops ++ [f st.y], st.y⟩

/-- Vertical extents drawn as top-level receipt rows: each text op
contributes `(y, glyph height)`.  Used for the locale scripts, whose ops
are all top-level text rows. -/
def textRowExtents (ops : List DrawOp) : List (Int × Int) :=
  ops.filterMap fun op =>
    match op with
    | .text _ y _ f _ => some (y, fontHeight f)
    | _ => none

/-- The x coordinates a drawing op touches. -/
def opXs : DrawOp → List Int
  | .text x _ _ _ _ => [x]
  | .rect x0 _ x1 _ _ _ _ => [x0, x1]
  | .line x0 _ x1 _ _ _ => [x0, x1]

end Receipt

namespace Receipt.fi

/-! Straight-line translation of `generate_test_receipt_fi.py`. -/

def WIDTH : Int := 400
def HEIGHT : Int := 550

/-- The script body: every draw call in source order, threading
`y_position` (initialised to 30 at line 30) exactly as the Python does. -/
def run (fs : FontSet) : RState :=
  (RState.mk [] 30)
  |>.row "SUPERMARKET ABC" 120 fs.large
  |>.row "123 Pääkatu" 130 fs.small
  |>.row "Helsinki, FI" 150 fs.small
  |>.gap 10
  |>.row "Päivämäärä: 2026-01-02" 50 fs.medium
  |>.row "Aika: 13:30:15" 50 fs.medium
  |>.row "Kuitti nro 001234" 50 fs.medium
  |>.gap 10
  |>.row "Tuotteet:" 50 fs.medium
  |>.row "Leipä                    €2.50" 50 fs.small
  |>.row "Maito 1L                  €1.89" 50 fs.small
  |>.row "Omenat 1kg               €3.20" 50 fs.small
  |>.row "Kahvi                     €4.99" 50 fs.small
  |>.gap 10
  |>.row "Välisumma:                €12.58" 50 fs.medium
  |>.gap 10
  |>.row "ALV 24%:                  €3.02" 50 fs.medium
  |>.gap 10
  |>.row "YHTEENSÄ:                 €15.60" 50 fs.medium
  |>.gap 10
  |>.row "Maksutapa: KORTTI" 50 fs.medium
  |>.gap 10
  |>.row "Kiitos!" 150 fs.medium

/-- The vertical extents of the script's rows (all are text rows). -/
def rowExtents (fs : FontSet) : List (Int × Int) :=
  textRowExtents (run fs).ops

/-- Cent values of the four hardcoded item prices (`€2.50`, `€1.89`,
`€3.20`, `€4.99`, lines 51–54). -/
def itemPriceCents : List ℤ := [250, 189, 320, 499]

/-- `Välisumma:                €12.58` (line 58). -/
def subtotalCents : ℤ := 1258

/-- The VAT rate named by `ALV 24%:` (line 62). -/
def vatRate : ℚ := 24 / 100

/-- `ALV 24%:                  €3.02` (line 62). -/
def vatCents : ℤ := 302

/-- `YHTEENSÄ:                 €15.60` (line 66). -/
def totalCents : ℤ := 1560

end Receipt.fi

namespace Receipt.de

/-! Straight-line translation of `generate_test_receipt_de.py`. -/

def WIDTH : Int := 400
def HEIGHT : Int := 550

/-- The script body of the German variant, threading `y_position`. -/
def run (fs : FontSet) : RState :=
  (RState.mk [] 30)
  |>.row "SUPERMARKET ABC" 120 fs.large
  |>.row "123 Hauptstraße" 130 fs.small
  |>.row "Berlin, DE" 150 fs.small
  |>.gap 10
  |>.row "Datum: 2026-01-02" 50 fs.medium
  |>.row "Uhrzeit: 13:30:15" 50 fs.medium
  |>.row "Rechnung Nr. 001234" 50 fs.medium
  |>.gap 10
  |>.row "Artikel:" 50 fs.medium
  |>.row "Brot                      €2.50" 50 fs.small
  |>.row "Milch 1L                  €1.89" 50 fs.small
  |>.row "Äpfel 1kg                €3.20" 50 fs.small
  |>.row "Kaffee                    €4.99" 50 fs.small
  |>.gap 10
  |>.row "Zwischensumme:            €12.58" 50 fs.medium
  |>.gap 10
  |>.row "MWST 24%:                 €3.02" 50 fs.medium
  |>.gap 10
  |>.row "GESAMT:                   €15.60" 50 fs.medium
  |>.gap 10
  |>.row "Zahlung: KARTE" 50 fs.medium
  |>.gap 10
  |>.row "Vielen Dank!" 150 fs.medium

/-- The vertical extents of the script's rows (all are text rows). -/
def rowExtents (fs : FontSet) : List (Int × Int) :=
  textRowExtents (run fs).ops

/-- Cent values of the hardcoded item prices (lines 51–54). -/
def itemPriceCents : List ℤ := [250, 189, 320, 499]

/-- `Zwischensumme:            €12.58` (line 58). -/
def subtotalCents : ℤ := 1258

/-- The VAT rate named by `MWST 24%:` (line 62). -/
def vatRate : ℚ := 24 / 100

/-- `MWST 24%:                 €3.02` (line 62). -/
def vatCents : ℤ := 302

/-- `GESAMT:                   €15.60` (line 66). -/
def totalCents : ℤ := 1560

end Receipt.de

namespace Receipt.sv

/-! Straight-line translation of `generate_test_receipt_sv.py`. -/

def WIDTH : Int := 400
def HEIGHT : Int := 550

/-- The script body of the Swedish variant, threading `y_position`. -/
def run (fs : FontSet) : RState :=
  (RState.mk [] 30)
  |>.row "SUPERMARKET ABC" 120 fs.large
  |>.row "123 Huvudgatan" 130 fs.small
  |>.row "Stockholm, SE" 150 fs.small
  |>.gap 10
  |>.row "Datum: 2026-01-02" 50 fs.medium
  |>.row "Tid: 13:30:15" 50 fs.medium
  |>.row "Kvitto nr 001234" 50 fs.medium
  |>.gap 10
  |>.row "Varor:" 50 fs.medium
  |>.row "Bröd                      €2.50" 50 fs.small
  |>.row "Mjölk 1L                  €1.89" 50 fs.small
  |>.row "Äpplen 1kg               €3.20" 50 fs.small
  |>.row "Kaffe                     €4.99" 50 fs.small
  |>.gap 10
  |>.row "Delsumma:                 €12.58" 50 fs.medium
  |>.gap 10
  |>.row "MOMS 24%:                 €3.02" 50 fs.medium
  |>.gap 10
  |>.row "TOTALT:                    €15.60" 50 fs.medium
  |>.gap 10
  |>.row "Betalning: KORT" 50 fs.medium
  |>.gap 10
  |>.row "Tack!" 150 fs.medium

/-- The vertical extents of the script's rows (all are text rows). -/
def rowExtents (fs : FontSet) : List (Int × Int) :=
  textRowExtents (run fs).ops

/-- Cent values of the hardcoded item prices (lines 51–54). -/
def itemPriceCents : List ℤ := [250, 189, 320, 499]

/-- `Delsumma:                 €12.58` (line 58). -/
def subtotalCents : ℤ := 1258

/-- The VAT rate named by `MOMS 24%:` (line 62). -/
def vatRate : ℚ := 24 / 100

/-- `MOMS 24%:                 €3.02` (line 62). -/
def vatCents : ℤ := 302

/-- `TOTALT:                    €15.60` (line 66). -/
def totalCents : ℤ := 1560

end Receipt.sv

namespace Receipt.v2

/-! Straight-line translation of `generate_test_receipt_v2.py`. -/

def WIDTH : Int := 400
def HEIGHT : Int := 600

/-- `table_width = 320` (line 66). -/
def table_width : Int := 320

/-- `table_x_start = 40` (line 67). -/
def table_x_start : Int := 40

/-- `table_x_end = table_x_start + table_width` (line 68). -/
def table_x_end : Int := table_x_start + table_width

/-- The script body, threading `y_position` (initialised to 30) exactly as
the Python does: text rows advance by 20, `+=` statements shift the
cursor, and the tax-breakdown table emits its rectangle, header cells,
separator lines and data cells before `y_position += 25` / `+= 30`. -/
def run (fs : FontSet) : RState :=
  (RState.mk [] 30)
  |>.row "SUPERMARKET ABC" 120 fs.large
  |>.row "123 Main Street" 130 fs.small
  |>.row "Helsinki, FI" 150 fs.small
  |>.gap 10
  |>.row "Date: 2026-01-02" 50 fs.medium
  |>.row "Time: 13:30:15" 50 fs.medium
  |>.row "Receipt # 001234" 50 fs.medium
  |>.gap 10
  |>.row "Items:" 50 fs.medium
  |>.row "Bread                    €2.50" 50 fs.small
  |>.row "Milk 1L                  €1.89" 50 fs.small
  |>.row "Apples 1kg               €3.20" 50 fs.small
  |>.row "Coffee                   €4.99" 50 fs.small
  |>.gap 10
  |>.row "Subtotal:                €12.58" 50 fs.medium
  |>.gap 10
  |>.gap 5
  |>.draw (fun y => .rect table_x_start y table_x_end (y + 50) (some TEXT_COLOR) none 2)
  |>.draw (fun y => .rect table_x_start y table_x_end (y + 25) none (some header_bg) 1)
  |>.cell "Tax rate" 50 5 fs.small
  |>.cell "Tax" 130 5 fs.small
  |>.cell "Subtotal" 200 5 fs.small
  |>.cell "Total" 280 5 fs.small
  |>.draw (fun y => .line 120 y 120 (y + 50) TEXT_COLOR 1)
  |>.draw (fun y => .line 190 y 190 (y + 50) TEXT_COLOR 1)
  |>.draw (fun y => .line 270 y 270 (y + 50) TEXT_COLOR 1)
  |>.draw (fun y => .line table_x_start (y + 25) table_x_end (y + 25) TEXT_COLOR 1)
  |>.gap 25
  |>.cell "14%" 50 5 fs.small
  |>.cell "€1.76" 130 5 fs.small
  |>.cell "€12.58" 200 5 fs.small
  |>.cell "€14.34" 280 5 fs.small
  |>.gap 30
  |>.row "TOTAL:                   €14.34" 50 fs.medium
  |>.gap 10
  |>.row "Payment: CARD" 50 fs.medium
  |>.gap 10
  |>.row "Thank you!" 150 fs.medium

/-- Cursor values at which the table's rows start: the header row at
`table_y_start = 315` and the data row after `y_position += 25`. -/
def tableRowYs : List Int := [315, 340]

/-- The vertical extents of the receipt's rows, in render order: the text
rows outside the table (at the cursor values the trace reaches, with
their glyph heights) and the tax table as one block — its border
rectangle spans 50 px from `table_y_start = 315`. -/
def rowExtents (fs : FontSet) : List (Int × Int) :=
  [(30, fontHeight fs.large), (50, fontHeight fs.small), (70, fontHeight fs.small),
   (100, fontHeight fs.medium), (120, fontHeight fs.medium), (140, fontHeight fs.medium),
   (170, fontHeight fs.medium), (190, fontHeight fs.small), (210, fontHeight fs.small),
   (230, fontHeight fs.small), (250, fontHeight fs.small),
   (280, fontHeight fs.medium),
   (315, 50),
   (370, fontHeight fs.medium), (400, fontHeight fs.medium), (430, fontHeight fs.medium)]

end Receipt.v2

namespace Receipt.v3

/-- `row_height = 25` (line 76). -/
def row_height : Int := 25

/-- `table_width = 320` (line 73). -/
def table_width : Int := 320

/-- `table_x_start = 40` (line 74). -/
def table_x_start : Int := 40

/-- `table_x_end = table_x_start + table_width` (line 75). -/
def table_x_end : Int := table_x_start + table_width

/-- `table_height = 25 + (row_height * 2) + 5` (line 79). -/
def table_height : Int := 25 + row_height * 2 + 5

/-- The script body of v3, threading `y_position` exactly as the Python
does; the computed cell strings are the f-string texts
`f"€\x7btax_14:.2f\x7d"` etc., translated via `fmt2`. -/
def run (fs : FontSet) : RState :=
  (RState.mk [] 30)
  |>.row "SUPERMARKET ABC" 120 fs.large
  |>.row "123 Main Street" 130 fs.small
  |>.row "Helsinki, FI" 150 fs.small
  |>.gap 10
  |>.row "Date: 2026-01-02" 50 fs.medium
  |>.row "Time: 13:30:15" 50 fs.medium
  |>.row "Receipt # 001235" 50 fs.medium
  |>.gap 10
  |>.row "Items:" 50 fs.medium
  |>.row "Bread                    €2.50" 50 fs.small
  |>.row "Milk 1L                  €1.89" 50 fs.small
  |>.row "Apples 1kg               €3.20" 50 fs.small
  |>.row "Coffee                   €4.99" 50 fs.small
  |>.row "Wine 750ml              €8.50" 50 fs.small
  |>.gap 10
  |>.row ("Subtotal:                €" ++ fmt2 total_subtotal) 50 fs.medium
  |>.gap 10
  |>.gap 5
  |>.draw (fun y => .rect table_x_start y table_x_end (y + table_height) (some TEXT_COLOR) none 2)
  |>.draw (fun y => .rect table_x_start y table_x_end (y + row_height) none (some header_bg) 1)
  |>.cell "Tax rate" 50 5 fs.small
  |>.cell "Tax" 130 5 fs.small
  |>.cell "Subtotal" 200 5 fs.small
  |>.cell "Total" 280 5 fs.small
  |>.draw (fun y => .line 120 y 120 (y + table_height) TEXT_COLOR 1)
  |>.draw (fun y => .line 190 y 190 (y + table_height) TEXT_COLOR 1)
  |>.draw (fun y => .line 270 y 270 (y + table_height) TEXT_COLOR 1)
  |>.draw (fun y => .line table_x_start (y + row_height) table_x_end (y + row_height) TEXT_COLOR 1)
  |>.gap row_height
  |>.cell "14%" 50 5 fs.small
  |>.cell ("€" ++ fmt2 tax_14) 130 5 fs.small
  |>.cell ("€" ++ fmt2 subtotal_14) 200 5 fs.small
  |>.cell ("€" ++ fmt2 total_14) 280 5 fs.small
  |>.draw (fun y => .line table_x_start (y + row_height) table_x_end (y + row_height) TEXT_COLOR 1)
  |>.gap row_height
  |>.cell "24%" 50 5 fs.small
  |>.cell ("€" ++ fmt2 tax_24) 130 5 fs.small
  |>.cell ("€" ++ fmt2 subtotal_24) 200 5 fs.small
  |>.cell ("€" ++ fmt2 total_24) 280 5 fs.small
  |>.gap (row_height + 5)
  |>.gap 5
  |>.row ("Total Tax:               €" ++ fmt2 total_tax) 50 fs.medium
  |>.row ("TOTAL:                   €" ++ fmt2 grand_total) 50 fs.medium
  |>.gap 10
  |>.row "Payment: CARD" 50 fs.medium
  |>.gap 10
  |>.row "Thank you!" 150 fs.medium

/-- Cursor values at which the table's rows start: the header row at
`table_y_start = 335` and the two data rows, each after
`y_position += row_height`. -/
def tableRowYs : List Int := [335, 360, 385]

/-- The vertical extents of the receipt's rows, in render order: text rows
outside the table, and the tax table as one block — its border rectangle
spans `table_height = 80` px from `table_y_start = 335`. -/
def rowExtents (fs : FontSet) : List (Int × Int) :=
  [(30, fontHeight fs.large), (50, fontHeight fs.small), (70, fontHeight fs.small),
   (100, fontHeight fs.medium), (120, fontHeight fs.medium), (140, fontHeight fs.medium),
   (170, fontHeight fs.medium), (190, fontHeight fs.small), (210, fontHeight fs.small),
   (230, fontHeight fs.small), (250, fontHeight fs.small), (270, fontHeight fs.small),
   (300, fontHeight fs.medium),
   (335, 80),
   (420, fontHeight fs.medium), (440, fontHeight fs.medium),
   (470, fontHeight fs.medium), (500, fontHeight fs.medium)]

end Receipt.v3

namespace Receipt

/-- Which of the three script font bindings a text row uses. -/
inductive FontChoice
  | large
  | medium
  | small
deriving DecidableEq, Repr

/-- Resolve a font choice against the script's loaded `FontSet`. -/
def FontSet.resolve (fs : FontSet) : FontChoice → Font
  | .large => fs.large
  | .medium => fs.medium
  | .small => fs.small

/-- Modelled from the spec: a ReceiptSpec row (§3) — either a plain text
line (content string, horizontal position, font size) or a table
construct (border, header fill, column separators at given x-offsets,
cell rows).  The repository has no generic renderer, only the five
straight-line scripts that instantiate this shape. -/
inductive Row
  | text (content : String) (x : Int) (fc : FontChoice)
  | table (x0 x1 : Int) (colXs : List Int) (cells : List (List (String × Int)))
deriving DecidableEq, Repr

/-- Modelled from the spec: a ReceiptSpec is an ordered sequence of rows. -/
structure ReceiptSpec where
  rows : List Row
deriving DecidableEq, Repr

/-- Cursor values at which the rows of a table starting at `y` are placed:
row `i` at `y + 25 * i` (the fixed 25-px row height of §4.1). -/
def tableRowYList (y : Int) (n : Nat) : List Int :=
  (List.range n).map fun (i : Nat) => y + 25 * (i : Int)

/-- Modelled from the spec (§4.1): render one row at cursor `y`, returning
the emitted ops and the new cursor.  A text row draws at `(x, y)` and
advances the cursor by the fixed 20-px line height; a table draws its
outer border, header fill, vertical column separators, horizontal row
separators, and cell texts, spacing rows by the fixed 25-px row height. -/
def rowOps (fs : FontSet) (y : Int) : Row → List DrawOp × Int
  | .text s x fc => ([(draw_text s x y (fs.resolve fc)).1], y + 20)
  | .table x0 x1 colXs cells =>
    let n := cells.length
    let h : Int := 25 * n
    let border := [DrawOp.rect x0 y x1 (y + h) (some TEXT_COLOR) none 2,
                   DrawOp.rect x0 y x1 (y + 25) none (some header_bg) 1]
    let vlines := colXs.map fun cx => DrawOp.line cx y cx (y + h) TEXT_COLOR 1
    let hlines := (tableRowYList y n).map fun ry => DrawOp.line x0 ry x1 ry TEXT_COLOR 1
    let cellTexts := (cells.zip (tableRowYList y n)).flatMap fun rc =>
      rc.1.map fun c => (draw_text c.1 c.2 (rc.2 + 5) (fs.resolve .small)).1
    (border ++ vlines ++ hlines ++ cellTexts, y + h)

/-- Modelled from the spec: render a list of rows in order, threading the
cursor top to bottom. -/
def renderRows (fs : FontSet) (y : Int) : List Row → List DrawOp × Int
  | [] => ([], y)
  | r :: rs =>
    let p := rowOps fs y r
    let q := renderRows fs p.2 rs
    (p.1 ++ q.1, q.2)

/-- The rasterized output image: canvas dimensions, background fill, and
the ops drawn onto the canvas in order. -/
structure RasterImage where
  width : Int
  height : Int
  bg : RGB
  ops : List DrawOp
deriving DecidableEq, Repr

/-- Modelled from the spec: `render(spec, canvasWidth, canvasHeight)` —
initialise a blank canvas of the given size and background color and
render the spec's rows from the scripts' initial cursor of 30. -/
def render (spec : ReceiptSpec) (w h : Int) (bg : RGB) (fs : FontSet) : RasterImage :=
  ⟨w, h, bg, (renderRows fs 30 spec.rows).1⟩

/-- Pixel effect of one drawing op at `(px, py)` over a current color `c`.
Glyph rasterization is PIL's (the spec's external drawing-surface
collaborator); a text op's footprint is modelled as its bounding box. -/
def paint (px py : Int) (op : DrawOp) (c : RGB) : RGB :=
  match op with
  | .text x y s f col =>
    if x ≤ px ∧ px < x + 7 * (s.length : Int) ∧ y ≤ py ∧ py < y + fontHeight f then col else c
  | .rect x0 y0 x1 y1 outline fill w =>
    let c1 := match fill with
      | some fc => if x0 ≤ px ∧ px ≤ x1 ∧ y0 ≤ py ∧ py ≤ y1 then fc else c
      | none => c
    match outline with
    | some oc =>
      if (x0 ≤ px ∧ px ≤ x1 ∧ y0 ≤ py ∧ py ≤ y1) ∧
          ¬ (x0 + w ≤ px ∧ px ≤ x1 - w ∧ y0 + w ≤ py ∧ py ≤ y1 - w) then oc else c1
    | none => c1
  | .line x0 y0 x1 y1 col w =>
    if min x0 x1 ≤ px ∧ px ≤ max x0 x1 + (w - 1) ∧
        min y0 y1 ≤ py ∧ py ≤ max y0 y1 + (w - 1) then col else c

/-- Color of the output image at `(px, py)`: the background overpainted by
the ops in drawing order. -/
def RasterImage.pixel (img : RasterImage) (px py : Int) : RGB :=
  img.ops.foldl (fun c op => paint px py op c) img.bg

/-- The no-overlap/ordering relation between consecutive row extents:
the later row starts strictly below the start of the earlier one, and at
or below its end. -/
def rowsBelow (a b : Int × Int) : Prop :=
  a.1 < b.1 ∧ a.1 + a.2 ≤ b.1

instance : DecidableRel rowsBelow :=
  fun a b => inferInstanceAs (Decidable (a.1 < b.1 ∧ a.1 + a.2 ≤ b.1))

/-- Font loading has exactly two outcomes: the three Helvetica handles, or
the all-default fallback set. -/
theorem loadFonts_cases (env : Nat → Bool) :
    loadFonts env = helveticaFonts ∨ loadFonts env = defaultFonts := by
  cases h16 : env 16 <;> cases h14 : env 14 <;> cases h12 : env 12 <;>
    simp [loadFonts, loadFontsTry, truetypeLoad, h16, h14, h12, helveticaFonts, defaultFonts]

/-- C1: for every tax bucket the renderer processes, the displayed tax cell
equals `round(subtotal * rate, 2)` and the displayed total cell equals
`round(subtotal + tax, 2)` of the subtotal plus that rounded tax. -/
theorem C1_bucket_tax_rounding :
    ∀ b ∈ allBuckets,
      b.dispTaxCents = roundCents (b.subtotal * b.rate) ∧
      b.dispTotalCents = roundCents (b.subtotal + (b.dispTaxCents : ℚ) / 100) := by
  intro b hb
  simp only [allBuckets, List.mem_cons, List.not_mem_nil, or_false] at hb
  rcases hb with rfl | rfl | rfl <;>
    refine ⟨?_, ?_⟩ <;>
    norm_num [v2Bucket, v3Bucket14, v3Bucket24, roundCents, round_eq,
      v3.subtotal_14, v3.subtotal_24, v3.tax_14, v3.tax_24, v3.total_14, v3.total_24]

/-- Witness for C1 at the v2 bucket (subtotal 12.58, rate 14 %). -/
theorem C1_bucket_tax_rounding_witness :
    v2Bucket.dispTaxCents = roundCents (v2Bucket.subtotal * v2Bucket.rate) ∧
    v2Bucket.dispTotalCents =
      roundCents (v2Bucket.subtotal + (v2Bucket.dispTaxCents : ℚ) / 100) :=
  C1_bucket_tax_rounding v2Bucket (by simp [allBuckets])

/-- C2: with subtotal 7.59 and rate 14 % the computed tax rounds to 1.06
and the computed total to 8.65; with subtotal 13.49 and rate 24 % the tax
rounds to 3.24 and the total to 16.73. -/
theorem C2_two_rate_bucket_values :
    v3.subtotal_14 = 7.59 ∧ roundCents v3.tax_14 = 106 ∧ roundCents v3.total_14 = 865 ∧
    v3.subtotal_24 = 13.49 ∧ roundCents v3.tax_24 = 324 ∧ roundCents v3.total_24 = 1673 := by
  norm_num [v3.subtotal_14, v3.subtotal_24, v3.tax_14, v3.tax_24, v3.total_14, v3.total_24,
    roundCents, round_eq]

/-- C3: the grand total equals the sum of per-bucket totals (within 0.01,
in fact exactly) and equals the sum of subtotals plus the sum of taxes;
for the two buckets it displays as 25.38, with subtotals 21.08 and total
tax 4.30. -/
theorem C3_grand_total_consistent :
    |v3.grand_total - (v3.total_14 + v3.total_24)| ≤ 1 / 100 ∧
    v3.grand_total = (v3.subtotal_14 + v3.subtotal_24) + (v3.tax_14 + v3.tax_24) ∧
    roundCents v3.grand_total = 2538 ∧
    roundCents v3.total_subtotal = 2108 ∧
    roundCents v3.total_tax = 430 := by
  norm_num [v3.grand_total, v3.total_subtotal, v3.total_tax, v3.subtotal_14, v3.subtotal_24,
    v3.tax_14, v3.tax_24, v3.total_14, v3.total_24, roundCents, round_eq]

/-- C4: rendering is deterministic — two runs of the renderer on the same
spec, canvas size, background and font resolution produce identical
output images. -/
theorem C4_render_deterministic (spec : ReceiptSpec) (w h : Int) (bg : RGB)
    (env₁ env₂ : Nat → Bool) (hf : loadFonts env₁ = loadFonts env₂) :
    render spec w h bg (loadFonts env₁) = render spec w h bg (loadFonts env₂) := by
  rw [hf]

/-- Witness for C4 at a one-row spec with both runs resolving Helvetica. -/
theorem C4_render_deterministic_witness :
    render ⟨[Row.text "Thank you!" 150 .medium]⟩ 400 550 BG_COLOR (loadFonts fun _ => true) =
    render ⟨[Row.text "Thank you!" 150 .medium]⟩ 400 550 BG_COLOR (loadFonts fun _ => true) :=
  C4_render_deterministic ⟨[Row.text "Thank you!" 150 .medium]⟩ 400 550 BG_COLOR
    (fun _ => true) (fun _ => true) rfl

/-- C5: drawing a plain text row advances the running cursor by exactly
20 px (both in the scripts' `draw_text` and in the renderer's text-row
step), and successive rows of a table construct are spaced by exactly
25 px (in the renderer's table row placement and in the v2/v3 tables). -/
theorem C5_line_and_row_heights :
    (∀ (s : String) (x y : Int) (f : Font), (draw_text s x y f).2 = y + 20) ∧
    (∀ (fs : FontSet) (y : Int) (s : String) (x : Int) (fc : FontChoice),
      (rowOps fs y (.text s x fc)).2 = y + 20) ∧
    (∀ (y : Int) (n i : Nat), i + 1 < n →
      (tableRowYList y n).getD (i + 1) 0 = (tableRowYList y n).getD i 0 + 25) ∧
    List.Chain' (fun a b => b = a + 25) v2.tableRowYs ∧
    List.Chain' (fun a b => b = a + 25) v3.tableRowYs := by
  refine ⟨fun s x y f => rfl, fun fs y s x fc => rfl, ?_, ?_, ?_⟩
  · intro y n i h
    have h1 : i < n := by omega
    simp only [tableRowYList, List.getD_eq_getElem?_getD, List.getElem?_map,
      List.getElem?_range, h, h1, if_true, Option.map_some', Option.getD_some]
    push_cast
    ring
  · simp [v2.tableRowYs, List.chain'_cons]
  · simp [v3.tableRowYs, List.chain'_cons]

/-- Witness for C5's table-spacing clause at the v3 table start (y = 335,
3 rows, row 0 to row 1). -/
theorem C5_line_and_row_heights_witness :
    (tableRowYList 335 3).getD 1 0 = (tableRowYList 335 3).getD 0 0 + 25 :=
  C5_line_and_row_heights.2.2.1 335 3 0 (by norm_num)

/-- C6: in every script's render, under either font resolution, the rows
are placed at strictly increasing vertical offsets and no row's vertical
extent overlaps that of any other row. -/
theorem C6_rows_monotone_no_overlap :
    ∀ env : Nat → Bool,
      List.Pairwise rowsBelow (fi.rowExtents (loadFonts env)) ∧
      List.Pairwise rowsBelow (de.rowExtents (loadFonts env)) ∧
      List.Pairwise rowsBelow (sv.rowExtents (loadFonts env)) ∧
      List.Pairwise rowsBelow (v2.rowExtents (loadFonts env)) ∧
      List.Pairwise rowsBelow (v3.rowExtents (loadFonts env)) := by
  intro env
  rcases loadFonts_cases env with h | h <;> rw [h] <;>
    exact ⟨by decide, by decide, by decide, by decide, by decide⟩

/-- C7: rendering a spec with zero rows yields a canvas of the requested
dimensions with no drawing ops, every pixel showing the background
color. -/
theorem C7_empty_spec_blank_canvas :
    ∀ (w h : Int) (bg : RGB) (fs : FontSet) (px py : Int),
      (render ⟨[]⟩ w h bg fs).width = w ∧
      (render ⟨[]⟩ w h bg fs).height = h ∧
      (render ⟨[]⟩ w h bg fs).ops = [] ∧
      (render ⟨[]⟩ w h bg fs).pixel px py = bg :=
  fun _ _ _ _ _ _ => ⟨rfl, rfl, rfl, rfl⟩

/-- C8: font resolution never surfaces an error — whenever the `try:`
block raises, all three handles fall back to the built-in default font,
and in every environment the loading step completes with usable handles
(the Helvetica set or the all-default set). -/
theorem C8_font_fallback :
    (∀ env : Nat → Bool, raised (loadFontsTry env) = true → loadFonts env = defaultFonts) ∧
    (∀ env : Nat → Bool, loadFonts env = helveticaFonts ∨ loadFonts env = defaultFonts) := by
  constructor
  · intro env herr
    cases hres : loadFontsTry env with
    | ok fs => rw [hres] at herr; simp [raised] at herr
    | error e => simp [loadFonts, hres]
  · exact loadFonts_cases

/-- Witness for C8 in an environment where no truetype size resolves. -/
theorem C8_font_fallback_witness :
    loadFonts (fun _ => false) = defaultFonts :=
  C8_font_fallback.1 (fun _ => false) rfl

/-- C9: in each single-rate locale script the hardcoded amounts are
mutually consistent — the four item prices sum to the displayed subtotal
12.58, the displayed 24 % VAT 3.02 equals `round(12.58 * 0.24, 2)`, and
the displayed total 15.60 is the subtotal plus the VAT. -/
theorem C9_locale_amounts_consistent :
    (fi.itemPriceCents.sum = fi.subtotalCents ∧
      fi.vatCents = roundCents ((fi.subtotalCents : ℚ) / 100 * fi.vatRate) ∧
      fi.totalCents = fi.subtotalCents + fi.vatCents) ∧
    (de.itemPriceCents.sum = de.subtotalCents ∧
      de.vatCents = roundCents ((de.subtotalCents : ℚ) / 100 * de.vatRate) ∧
      de.totalCents = de.subtotalCents + de.vatCents) ∧
    (sv.itemPriceCents.sum = sv.subtotalCents ∧
      sv.vatCents = roundCents ((sv.subtotalCents : ℚ) / 100 * sv.vatRate) ∧
      sv.totalCents = sv.subtotalCents + sv.vatCents) := by
  norm_num [fi.itemPriceCents, fi.subtotalCents, fi.vatRate, fi.vatCents, fi.totalCents,
    de.itemPriceCents, de.subtotalCents, de.vatRate, de.vatCents, de.totalCents,
    sv.itemPriceCents, sv.subtotalCents, sv.vatRate, sv.vatCents, sv.totalCents,
    roundCents, round_eq, List.sum_cons, List.sum_nil]

/-- C10: under either font resolution, every drawing op of every script
touches only x coordinates inside `[0, WIDTH)`, and the final cursor
after the footer does not exceed the canvas HEIGHT. -/
theorem C10_draws_within_canvas :
    ∀ env : Nat → Bool,
      ((∀ x ∈ (fi.run (loadFonts env)).ops.flatMap opXs, 0 ≤ x ∧ x < fi.WIDTH) ∧
        (fi.run (loadFonts env)).y ≤ fi.HEIGHT) ∧
      ((∀ x ∈ (de.run (loadFonts env)).ops.flatMap opXs, 0 ≤ x ∧ x < de.WIDTH) ∧
        (de.run (loadFonts env)).y ≤ de.HEIGHT) ∧
      ((∀ x ∈ (sv.run (loadFonts env)).ops.flatMap opXs, 0 ≤ x ∧ x < sv.WIDTH) ∧
        (sv.run (loadFonts env)).y ≤ sv.HEIGHT) ∧
      ((∀ x ∈ (v2.run (loadFonts env)).ops.flatMap opXs, 0 ≤ x ∧ x < v2.WIDTH) ∧
        (v2.run (loadFonts env)).y ≤ v2.HEIGHT) ∧
      ((∀ x ∈ (v3.run (loadFonts env)).ops.flatMap opXs, 0 ≤ x ∧ x < v3.WIDTH) ∧
        (v3.run (loadFonts env)).y ≤ v3.HEIGHT) := by
  intro env
  rcases loadFonts_cases env with h | h <;> rw [h] <;>
    exact ⟨⟨by decide, by decide⟩, ⟨by decide, by decide⟩, ⟨by decide, by decide⟩,
      ⟨by decide, by decide⟩, ⟨by decide, by decide⟩⟩

end Receipt
